import Mathlib

/-!
Verification development for the smooth-cursor overlay plugin.

We shallowly embed the position-tracking and animation code:
JavaScript numbers that can carry NaN or infinities are modelled by `JSNum`
(exact rationals plus the three special values); code whose numeric flow
never creates specials (the animation engine) is modelled directly over `ℚ`.
Stateful classes become explicit state-passing functions.
-/

namespace SmoothCursor

/-- A JavaScript number: an exact rational, NaN, or a signed infinity.
Rounding of IEEE doubles is not modelled; the embedded code only adds,
subtracts, doubles and compares, and the claims under study do not depend
on rounding. -/
inductive JSNum where
  | num : ℚ → JSNum
  | nan : JSNum
  | inf : JSNum
  | ninf : JSNum
deriving DecidableEq, Repr

namespace JSNum

/-- JavaScript `isNaN`. -/
def isNaN : JSNum → Bool
  | nan => true
  | _ => false

/-- JavaScript `isFinite`: true exactly for ordinary numbers. -/
def isFinite : JSNum → Bool
  | num _ => true
  | _ => false

/-- JavaScript truthiness of a number: `0` and `NaN` are falsy. -/
def truthy : JSNum → Bool
  | num q => decide (q ≠ 0)
  | nan => false
  | _ => true

/-- JavaScript `a || b` on numbers: `b` when `a` is falsy. -/
def orDefault (a b : JSNum) : JSNum :=
  if a.truthy then a else b

/-- JavaScript subtraction with the special values. -/
def sub : JSNum → JSNum → JSNum
  | num a, num b => num (a - b)
  | num _, inf => ninf
  | num _, ninf => inf
  | inf, num _ => inf
  | inf, ninf => inf
  | ninf, num _ => ninf
  | ninf, inf => ninf
  | inf, inf => nan
  | ninf, ninf => nan
  | nan, _ => nan
  | _, nan => nan

/-- JavaScript `x * 2`. -/
def double : JSNum → JSNum
  | num a => num (2 * a)
  | nan => nan
  | inf => inf
  | ninf => ninf

/-- JavaScript `<` on numbers: any comparison involving NaN is false. -/
def lt : JSNum → JSNum → Bool
  | num a, num b => decide (a < b)
  | num _, inf => true
  | ninf, num _ => true
  | ninf, inf => true
  | _, _ => false

/-- JavaScript `<=` on numbers: any comparison involving NaN is false. -/
def le : JSNum → JSNum → Bool
  | num a, num b => decide (a ≤ b)
  | num _, inf => true
  | ninf, num _ => true
  | ninf, inf => true
  | inf, inf => true
  | ninf, ninf => true
  | _, _ => false

end JSNum

/-- Screen coordinates returned by the host (`{left, top}`). -/
structure Coords where
  left : JSNum
  top : JSNum
deriving DecidableEq, Repr

/-- A DOM bounding rectangle, as returned by `getBoundingClientRect`. -/
structure DOMRectM where
  left : JSNum
  top : JSNum
  width : JSNum
  height : JSNum
deriving DecidableEq, Repr

/-- Model of the host editing surface (`EditorView`): the coordinate query
(with directional side bias), the hidden native caret element found by
`querySelector` together with its bounding rectangle, the default metrics,
and the document as lines of UTF-16 code units. -/
structure EditorViewM where
  coordsAtPos : ℕ → ℤ → Option Coords
  nativeCursorRect : Option DOMRectM
  defaultCharacterWidth : JSNum
  defaultLineHeight : JSNum
  docLines : List (List ℕ)

/-- `getNativeCursorPosition` from `dom-utils`: the rectangle of the native
`.cm-cursor` element, accepted when some dimension is positive
(`rect.width > 0 || rect.height > 0`). -/
def getNativeCursorPosition (native : Option DOMRectM) : Option Coords :=
  match native with
  | some r =>
    if (JSNum.lt (JSNum.num 0) r.width || JSNum.lt (JSNum.num 0) r.height) then
      some ⟨r.left, r.top⟩
    else
      none
  | none => none

/-- `getCursorCoords` from `editor-utils`: the ordered fallback chain
side 1, side -1, native caret rectangle, last successful coordinates. -/
def getCursorCoords (ev : EditorViewM) (pos : ℕ)
    (lastSuccessfulCoords : Option Coords) : Option Coords :=
  match ev.coordsAtPos pos 1 with
  | some c => some c
  | none =>
    match ev.coordsAtPos pos (-1) with
    | some c => some c
    | none =>
      match getNativeCursorPosition ev.nativeCursorRect with
      | some c => some c
      | none => lastSuccessfulCoords

/-- `getDefaultCharWidth` from `editor-utils`:
`editorView.defaultCharacterWidth || 8`, `8` when detached. -/
def getDefaultCharWidth (ev : Option EditorViewM) : JSNum :=
  match ev with
  | none => JSNum.num 8
  | some v => JSNum.orDefault v.defaultCharacterWidth (JSNum.num 8)

/-- `getDefaultLineHeight` from `editor-utils`:
`editorView.defaultLineHeight || 20`, `20` when detached. -/
def getDefaultLineHeight (ev : Option EditorViewM) : JSNum :=
  match ev with
  | none => JSNum.num 20
  | some v => JSNum.orDefault v.defaultLineHeight (JSNum.num 20)

/-! ### Document model (CodeMirror `Text`) -/

/-- `doc.length`: characters of every line plus one newline between
consecutive lines. -/
def docLength (lines : List (List ℕ)) : ℕ :=
  (lines.map List.length).sum + (lines.length - 1)

/-- Helper for `lineAt`: walk the lines accumulating the start offset of the
current line; a position at or before the end of a line belongs to it. -/
def lineAtAux : ℕ → List (List ℕ) → ℕ → ℕ × List ℕ
  | acc, [], _ => (acc, [])
  | acc, l :: ls, pos =>
    if pos ≤ acc + l.length then (acc, l)
    else lineAtAux (acc + l.length + 1) ls pos

/-- `doc.lineAt(pos)`: the start offset (`line.from`) and text of the line
containing `pos`. -/
def lineAt (lines : List (List ℕ)) (pos : ℕ) : ℕ × List ℕ :=
  lineAtAux 0 lines pos

/-! ### Character measurement service -/

/-- Mutable state of `CharacterMeasurementService`: the attached view and the
per-character width cache (a JavaScript `Map`, insertion ordered). -/
structure MeasureState where
  editorView : Option EditorViewM
  charWidthCache : List (ℕ × JSNum)

/-- `Map.get` on the character-width cache. -/
def charCacheGet (cache : List (ℕ × JSNum)) (k : ℕ) : Option JSNum :=
  (cache.find? (fun p => p.1 == k)).map Prod.snd

/-- `Map.set` on the character-width cache: replace in place when the key is
present, otherwise append. -/
def charCacheSet (cache : List (ℕ × JSNum)) (k : ℕ) (v : JSNum) : List (ℕ × JSNum) :=
  if (cache.find? (fun p => p.1 == k)).isSome then
    cache.map (fun p => if p.1 == k then (k, v) else p)
  else
    cache ++ [(k, v)]

/-- The first UTF-16 code unit of the character with code point `cp`
(JavaScript `charCodeAt(0)`): the code point itself inside the BMP, the high
surrogate for supplementary-plane characters. -/
def utf16First (cp : ℕ) : ℕ :=
  if cp < 0x10000 then cp else 0xD800 + (cp - 0x10000) / 0x400

/-- The wide-glyph range test of `estimateCharWidth`, applied to the value of
`charCodeAt(0)`. -/
def isWideCode (code : ℕ) : Bool :=
  (0x4E00 ≤ code && code ≤ 0x9FFF) ||
  (0x3400 ≤ code && code ≤ 0x4DBF) ||
  (0x3000 ≤ code && code ≤ 0x303F) ||
  (0xFF00 ≤ code && code ≤ 0xFFEF) ||
  (0xAC00 ≤ code && code ≤ 0xD7AF) ||
  (0x3040 ≤ code && code ≤ 0x30FF) ||
  (0x1F000 < code)

/-- `CharacterMeasurementService.estimateCharWidth`: twice the default width
for code units in the listed ranges, the default width otherwise.  `code` is
the UTF-16 code unit the service read out of the line text. -/
def estimateCharWidth (ev : Option EditorViewM) (code : ℕ) : JSNum :=
  let defaultWidth := getDefaultCharWidth ev
  if isWideCode code then JSNum.double defaultWidth else defaultWidth

/-- The estimate seen for a character given by its code point: JavaScript
indexing hands `estimateCharWidth` the first UTF-16 code unit. -/
def estimateCharWidthAtCodePoint (ev : Option EditorViewM) (cp : ℕ) : JSNum :=
  estimateCharWidth ev (utf16First cp)

/-- `CharacterMeasurementService.measureCharacterWidth`: measure via host
coordinates just before and after the character, falling back to the range
estimate when the delta is unavailable or non-positive. -/
def measureCharacterWidth (s : MeasureState) (pos : ℕ) : JSNum :=
  match s.editorView with
  | none => JSNum.num 8
  | some ev =>
    let docLen := docLength ev.docLines
    if pos ≥ docLen then getDefaultCharWidth (some ev)
    else
      let line := lineAt ev.docLines pos
      let offsetInLine := pos - line.1
      match line.2.get? offsetInLine with
      | none => getDefaultCharWidth (some ev)
      | some ch =>
        if line.2.length = 0 then getDefaultCharWidth (some ev)
        else
          let nextPos := min (pos + 1) docLen
          if nextPos > pos then
            match ev.coordsAtPos pos 1, ev.coordsAtPos nextPos (-1) with
            | some startCoords, some endCoords =>
              let width := JSNum.sub endCoords.left startCoords.left
              if JSNum.lt (JSNum.num 0) width then width
              else estimateCharWidth (some ev) ch
            | _, _ => estimateCharWidth (some ev) ch
          else estimateCharWidth (some ev) ch

/-- `CharacterMeasurementService.measureCharacterWidthCached`: early returns
for detached views, end-of-document offsets and missing characters, then the
per-character cache, then a fresh measurement cached for ASCII-compatible
code units (`charCodeAt(0) < 256`). -/
def measureCharacterWidthCached (s : MeasureState) (pos : ℕ) : JSNum × MeasureState :=
  match s.editorView with
  | none => (JSNum.num 8, s)
  | some ev =>
    let docLen := docLength ev.docLines
    if pos ≥ docLen then (getDefaultCharWidth (some ev), s)
    else
      let line := lineAt ev.docLines pos
      let offsetInLine := pos - line.1
      match line.2.get? offsetInLine with
      | none => (getDefaultCharWidth (some ev), s)
      | some ch =>
        if line.2.length = 0 then (getDefaultCharWidth (some ev), s)
        else
          match charCacheGet s.charWidthCache ch with
          | some w => (w, s)
          | none =>
            let w := measureCharacterWidth s pos
            if ch < 256 then
              (w, { s with charWidthCache := charCacheSet s.charWidthCache ch w })
            else (w, s)

/-! ### Shape dimension calculation -/

/-- A cursor rectangle as manipulated by the renderer (JavaScript numbers). -/
structure CursorPositionJ where
  x : JSNum
  y : JSNum
  width : JSNum
  height : JSNum
deriving DecidableEq, Repr

/-- Result of `calculateCursorDimensions`. -/
structure CursorDimensions where
  width : JSNum
  height : JSNum
  yOffset : JSNum
deriving DecidableEq, Repr

/-- `calculateCursorDimensions` from `coordinate-service.ts`: a JavaScript
`switch` on the shape string, with `block` behaviour as the default case. -/
def calculateCursorDimensions (pos : CursorPositionJ) (shape : String) : CursorDimensions :=
  if shape = "line" then
    { width := JSNum.num 2, height := pos.height, yOffset := JSNum.num 0 }
  else if shape = "underline" then
    { width := pos.width, height := JSNum.num 2,
      yOffset := JSNum.sub pos.height (JSNum.num 2) }
  else
    { width := pos.width, height := pos.height, yOffset := JSNum.num 0 }

/-! ### Coordinate service (per-offset cache, last-successful fallback) -/

/-- One entry of the coodinate cache: coordinates plus the
`performance.now()` timestamp at which they were stored. -/
structure CacheEntry where
  coords : Coords
  timestamp : ℚ
deriving DecidableEq, Repr

/-- Mutable state of `CoordinateService`. -/
structure CoordServiceState where
  editorView : Option EditorViewM
  lastSuccessfulCoords : Option Coords
  coordsCache : List (ℕ × CacheEntry)

/-- `coordsCacheMaxAge`: cache entries are valid for 50 ms. -/
def coordsCacheMaxAge : ℚ := 50

/-- `coordsCacheMaxSize`: the cache keeps at most 10 entries. -/
def coordsCacheMaxSize : ℕ := 10

/-- `Map.get` on the coordinate cache. -/
def coordsCacheGet (cache : List (ℕ × CacheEntry)) (k : ℕ) : Option CacheEntry :=
  (cache.find? (fun p => p.1 == k)).map Prod.snd

/-- `Map.set` on the coordinate cache: replace in place when present,
append otherwise. -/
def coordsCacheSet (cache : List (ℕ × CacheEntry)) (k : ℕ) (v : CacheEntry) :
    List (ℕ × CacheEntry) :=
  if (cache.find? (fun p => p.1 == k)).isSome then
    cache.map (fun p => if p.1 == k then (k, v) else p)
  else
    cache ++ [(k, v)]

/-- The fresh-lookup path of `getCursorCoordsCached`: run the fallback chain;
on success store the result as last-successful, cache it, and evict the
oldest entry past the capacity; on failure change nothing. -/
def coordLookupFresh (ev : EditorViewM) (s : CoordServiceState) (pos : ℕ) (now : ℚ) :
    Option Coords × CoordServiceState :=
  match getCursorCoords ev pos s.lastSuccessfulCoords with
  | some c =>
    let cache0 := coordsCacheSet s.coordsCache pos ⟨c, now⟩
    let cache1 := if cache0.length > coordsCacheMaxSize then cache0.tail else cache0
    (some c, { s with lastSuccessfulCoords := some c, coordsCache := cache1 })
  | none => (none, s)

/-- `CoordinateService.getCursorCoordsCached`: serve a fresh-enough cache
entry, otherwise fall through to the fresh lookup. -/
def getCursorCoordsCached (s : CoordServiceState) (pos : ℕ) (now : ℚ) :
    Option Coords × CoordServiceState :=
  match s.editorView with
  | none => (none, s)
  | some ev =>
    match coordsCacheGet s.coordsCache pos with
    | some entry =>
      if now - entry.timestamp < coordsCacheMaxAge then (some entry.coords, s)
      else coordLookupFresh ev s pos now
    | none => coordLookupFresh ev s pos now

/-! ### Animation engine

The engine's numeric flow (lerp steps, squared-distance thresholds) never
produces NaN or infinities from finite inputs, so it is modelled directly
over exact rationals. -/

/-- A cursor rectangle held by the animation engine. -/
structure QPos where
  x : ℚ
  y : ℚ
  width : ℚ
  height : ℚ
deriving DecidableEq, Repr

/-- The plugin settings the animation engine reads. -/
structure SettingsM where
  enableAnimation : Bool
  animationDuration : ℚ
  enableInsertModeAnimation : Bool
  insertModeAnimationDuration : Option ℚ

/-- Mutable state of `AnimationEngine`.  `lastEmitted` records the most
recent position handed to the frame callback; `pendingStop` records a
scheduled (debounced) movement-stopped notification. -/
structure EngineState where
  currentPos : QPos
  targetPos : QPos
  isAnimating : Bool
  isStopped : Bool
  cachedLerpFactor : ℚ
  cachedAnimationDuration : ℚ
  cachedTypingLerpFactor : ℚ
  cachedTypingAnimationDuration : ℚ
  isCurrentlyTyping : Bool
  isMovementActive : Bool
  pendingStop : Bool
  lastEmitted : Option QPos
deriving DecidableEq, Repr

/-- Squared positional distance between two rectangles
(`dx*dx + dy*dy` in `animate`). -/
def distSq (c t : QPos) : ℚ :=
  (t.x - c.x) * (t.x - c.x) + (t.y - c.y) * (t.y - c.y)

/-- Squared dimensional delta between two rectangles
(`dw*dw + dh*dh` in `animate`). -/
def dimSq (c t : QPos) : ℚ :=
  (t.width - c.width) * (t.width - c.width) +
  (t.height - c.height) * (t.height - c.height)

/-- One lerp application to all four fields:
`current += (target - current) * lerpFactor`. -/
def lerpStepQ (f : ℚ) (c t : QPos) : QPos :=
  { x := c.x + (t.x - c.x) * f
    y := c.y + (t.y - c.y) * f
    width := c.width + (t.width - c.width) * f
    height := c.height + (t.height - c.height) * f }

/-- The lerp factor `animate` selects each frame:
the typing factor while `isCurrentlyTyping`, the general factor otherwise. -/
def usedLerpFactor (s : EngineState) : ℚ :=
  if s.isCurrentlyTyping then s.cachedTypingLerpFactor else s.cachedLerpFactor

/-- `AnimationEngine.updateLerpFactor`: recompute each cached factor as
`min(1, 16 / max(duration, 16))`, but only when the corresponding configured
duration differs from the cached one; the typing duration defaults to 50. -/
def updateLerpFactor (settings : SettingsM) (s : EngineState) : EngineState :=
  let s1 :=
    if settings.animationDuration ≠ s.cachedAnimationDuration then
      { s with
        cachedAnimationDuration := settings.animationDuration
        cachedLerpFactor := min 1 (16 / max settings.animationDuration 16) }
    else s
  let typingDuration := settings.insertModeAnimationDuration.getD 50
  if typingDuration ≠ s1.cachedTypingAnimationDuration then
    { s1 with
      cachedTypingAnimationDuration := typingDuration
      cachedTypingLerpFactor := min 1 (16 / max typingDuration 16) }
  else s1

/-- Engine state as built by the constructor: zero rectangles, the seeded
caches (0.16 for 100 ms, 0.35 for 50 ms), then one `updateLerpFactor`. -/
def initEngine (settings : SettingsM) : EngineState :=
  updateLerpFactor settings
    { currentPos := ⟨0, 0, 0, 0⟩
      targetPos := ⟨0, 0, 0, 0⟩
      isAnimating := false
      isStopped := false
      cachedLerpFactor := 16 / 100
      cachedAnimationDuration := 100
      cachedTypingLerpFactor := 35 / 100
      cachedTypingAnimationDuration := 50
      isCurrentlyTyping := false
      isMovementActive := false
      pendingStop := false
      lastEmitted := none }

/-- `notifyMovementStarted`: raise the movement flag and cancel any pending
stop notification. -/
def notifyMovementStarted (s : EngineState) : EngineState :=
  { s with isMovementActive := true, pendingStop := false }

/-- `scheduleMovementStopped`: schedule the debounced stop notification. -/
def scheduleMovementStopped (s : EngineState) : EngineState :=
  { s with pendingStop := true }

/-- `setPositionDirect`: write `pos` to both current and target and emit it
through the frame callback. -/
def setPositionDirect (pos : QPos) (s : EngineState) : EngineState :=
  { s with currentPos := pos, targetPos := pos, lastEmitted := some pos }

/-- `AnimationEngine.setImmediate`: cancel the frame loop and set the
position directly. -/
def setImmediate (pos : QPos) (s : EngineState) : EngineState :=
  setPositionDirect pos { s with isAnimating := false }

/-- `AnimationEngine.animateTo`: snap when animation (or typing animation,
while typing) is disabled; otherwise record the target, clear the stopped
flag, refresh the cached lerp factors and start the frame loop. -/
def animateTo (settings : SettingsM) (target : QPos) (isTyping : Bool)
    (s0 : EngineState) : EngineState :=
  let s := { s0 with isCurrentlyTyping := isTyping }
  if settings.enableAnimation = false then
    scheduleMovementStopped (setPositionDirect target (notifyMovementStarted s))
  else if isTyping = true ∧ settings.enableInsertModeAnimation = false then
    scheduleMovementStopped (setPositionDirect target (notifyMovementStarted s))
  else
    let s1 := { s with targetPos := target, isStopped := false }
    let s2 := updateLerpFactor settings s1
    let s3 := notifyMovementStarted s2
    if s3.isAnimating then s3 else { s3 with isAnimating := true }

/-- One run of `AnimationEngine.animate` (one animation frame): early exit
when not animating, otherwise lerp all four fields toward the target, emit,
and snap-and-stop when the squared positional delta is below 0.25 and the
squared dimensional delta below 0.01. -/
def animateFrame (s : EngineState) : EngineState :=
  if s.isAnimating = false ∨ s.isStopped = true then
    scheduleMovementStopped s
  else
    let f := usedLerpFactor s
    let c := lerpStepQ f s.currentPos s.targetPos
    let s1 := { s with currentPos := c, lastEmitted := some c }
    if distSq c s.targetPos < 1 / 4 ∧ dimSq c s.targetPos < 1 / 100 then
      { s1 with
        currentPos := s.targetPos
        lastEmitted := some s.targetPos
        isAnimating := false
        isCurrentlyTyping := false
        pendingStop := true }
    else s1

/-- Iterate the animation frame callback. -/
def runFrames (n : ℕ) (s : EngineState) : EngineState :=
  match n with
  | 0 => s
  | Nat.succ m => animateFrame (runFrames m s)

/-! Concrete animation run for the convergence scenario: current
`{0,0,8,18}`, target `{100,0,8,18}`, 100 ms duration, not typing. -/

/-- Settings of the convergence scenario (the shipped defaults). -/
def convSettings : SettingsM :=
  { enableAnimation := true
    animationDuration := 100
    enableInsertModeAnimation := true
    insertModeAnimationDuration := some 50 }

/-- Start rectangle of the convergence scenario. -/
def convStart : QPos := ⟨0, 0, 8, 18⟩

/-- Target rectangle of the convergence scenario. -/
def convTarget : QPos := ⟨100, 0, 8, 18⟩

/-- Engine state right after `animateTo` is called for the scenario. -/
def convState0 : EngineState :=
  animateTo convSettings convTarget false (setImmediate convStart (initEngine convSettings))

/-- The scenario after `n` animation frames. -/
def convRun (n : ℕ) : EngineState := runFrames n convState0

/-! ### Cursor renderer: position calculation and update -/

/-- `CursorRenderer.calculateCursorPosition`: resolve coordinates through the
cached fallback chain, reject a missing result or a NaN / non-finite left or
top, then assemble the rectangle from the measured character width and the
default line height. -/
def calculateCursorPosition (ev : EditorViewM) (selHead : ℕ)
    (cs : CoordServiceState) (ms : MeasureState) (now : ℚ) :
    Option CursorPositionJ × CoordServiceState × MeasureState :=
  match getCursorCoordsCached cs selHead now with
  | (none, cs1) => (none, cs1, ms)
  | (some c, cs1) =>
    if c.left.isNaN || c.top.isNaN || !c.left.isFinite || !c.top.isFinite then
      (none, cs1, ms)
    else
      let m := measureCharacterWidthCached ms selHead
      let lineHeight := getDefaultLineHeight (some ev)
      (some ⟨c.left, c.top, m.1, lineHeight⟩, cs1, m.2)

/-- `CursorRenderer.calculateTargetPosition`: shape-adjusted dimensions on
the base rectangle. -/
def calculateTargetPosition (basePosition : CursorPositionJ) (shape : String) :
    CursorPositionJ :=
  let dims := calculateCursorDimensions basePosition shape
  { x := basePosition.x, y := basePosition.y
    width := dims.width, height := dims.height }

/-- Observable effects of one `updateCursorPositionWithContext` call:
health-check requests, overlay show/hide, direct DOM position writes, and
the positions handed to the animation engine. -/
inductive RenderEffect where
  | ensureHealth : RenderEffect
  | hide : RenderEffect
  | show : RenderEffect
  | domWrite : CursorPositionJ → JSNum → RenderEffect
  | engineSetImmediate : CursorPositionJ → RenderEffect
  | engineAnimateTo : CursorPositionJ → Bool → RenderEffect
deriving DecidableEq, Repr

/-- `CursorRenderer.updateCursorPositionWithContext` for an attached view:
bail out (forcing a health check) when the overlay element is missing or
disconnected; hide when the editor is unfocused or the computed position is
invalid; otherwise show and either write/seed immediately (scrolling or a
previously hidden overlay) or animate with the typing flag. -/
def updateCursorPositionWithContext (cursorElConnected : Option Bool)
    (focused isScrolling wasHidden : Bool) (shape : String) (isTyping : Bool)
    (ev : EditorViewM) (selHead : ℕ) (cs : CoordServiceState) (ms : MeasureState)
    (now : ℚ) : List RenderEffect × CoordServiceState × MeasureState :=
  match cursorElConnected with
  | none => ([RenderEffect.ensureHealth], cs, ms)
  | some false => ([RenderEffect.ensureHealth], cs, ms)
  | some true =>
    if focused = false then ([RenderEffect.hide], cs, ms)
    else
      match calculateCursorPosition ev selHead cs ms now with
      | (none, cs1, ms1) => ([RenderEffect.hide], cs1, ms1)
      | (some basePosition, cs1, ms1) =>
        let targetPosition := calculateTargetPosition basePosition shape
        if isScrolling then
          let yOffset :=
            if shape = "underline" then
              JSNum.sub basePosition.height targetPosition.height
            else JSNum.num 0
          ([RenderEffect.show, RenderEffect.domWrite targetPosition yOffset,
            RenderEffect.engineSetImmediate targetPosition], cs1, ms1)
        else if wasHidden then
          ([RenderEffect.show, RenderEffect.engineSetImmediate targetPosition,
            RenderEffect.domWrite targetPosition (JSNum.num 0)], cs1, ms1)
        else
          ([RenderEffect.show,
            RenderEffect.engineAnimateTo targetPosition isTyping], cs1, ms1)

/-! ### Cursor renderer: attach / detach lifecycle and the overlay element

The DOM-level facts the lifecycle claims need: which surface is attached,
whether the manager holds an element and whether that element is connected
to the document, and how many orphaned overlay-class nodes the document
holds besides it. -/

/-- Lifecycle state of `CursorRenderer` together with
`CursorElementManager`.  `cursorEl = some b` means the manager holds an
element whose `isConnected` is `b`; `orphanCount` counts overlay-class nodes
in the document not owned by the manager. -/
structure RendererState where
  editorView : Option ℕ
  isAttached : Bool
  cursorEl : Option Bool
  orphanCount : ℕ
deriving DecidableEq, Repr

/-- Overlay-class elements currently in the document
(`document.querySelectorAll` finds connected nodes only). -/
def overlayCount (s : RendererState) : ℕ :=
  s.orphanCount + (if s.cursorEl = some true then 1 else 0)

/-- `CursorRenderer.detach`: listeners and timers go away, the overlay is
hidden but kept in the document, the session fields reset. -/
def rendererDetach (s : RendererState) : RendererState :=
  { s with editorView := none, isAttached := false }

/-- `CursorElementManager.create`: drop the held element, remove every
overlay-class node from the document, then append one fresh element. -/
def elementCreate (s : RendererState) : RendererState :=
  { s with cursorEl := some true, orphanCount := 0 }

/-- `CursorRenderer.attach`: no-op when already attached to the same surface
with a healthy (connected) element; otherwise detach, bind the new surface
and create the overlay element. -/
def rendererAttach (s : RendererState) (v : ℕ) : RendererState :=
  if s.editorView = some v ∧ s.isAttached = true ∧ s.cursorEl = some true then s
  else
    let s1 := rendererDetach s
    elementCreate { s1 with editorView := some v, isAttached := true }

/-- `CursorRenderer.destroy`: detach, then `CursorElementManager.remove`
takes the element out of the document and drops it. -/
def rendererDestroy (s : RendererState) : RendererState :=
  let s1 := rendererDetach s
  { s1 with cursorEl := none }

/-- The lifecycle calls quantified over by the overlay-exclusivity claim. -/
inductive RendererOp where
  | attach : ℕ → RendererOp
  | detach : RendererOp
deriving DecidableEq, Repr

/-- Apply one lifecycle call. -/
def applyRendererOp (s : RendererState) (op : RendererOp) : RendererState :=
  match op with
  | RendererOp.attach v => rendererAttach s v
  | RendererOp.detach => rendererDetach s

/-- Apply a sequence of lifecycle calls. -/
def runRendererOps (s : RendererState) (ops : List RendererOp) : RendererState :=
  ops.foldl applyRendererOp s

/-- Renderer state when the plugin loads: no surface, no element. -/
def initialRendererState : RendererState :=
  { editorView := none, isAttached := false, cursorEl := none, orphanCount := 0 }

/-! ### Concrete host surfaces used to instantiate the theorems -/

/-- A host on which every resolution strategy fails. -/
def evFail : EditorViewM :=
  { coordsAtPos := fun _ _ => none
    nativeCursorRect := none
    defaultCharacterWidth := JSNum.num 8
    defaultLineHeight := JSNum.num 20
    docLines := [[]] }

/-- A well-behaved host: finite coordinates, default metrics 7 and 20,
an empty document. -/
def evGood : EditorViewM :=
  { coordsAtPos := fun _ _ => some ⟨JSNum.num 3, JSNum.num 4⟩
    nativeCursorRect := none
    defaultCharacterWidth := JSNum.num 7
    defaultLineHeight := JSNum.num 20
    docLines := [[]] }

/-- A host whose reported default character width is negative: coordinates
resolve fine, so the renderer accepts the position. -/
def evBad : EditorViewM :=
  { coordsAtPos := fun _ _ => some ⟨JSNum.num 5, JSNum.num 6⟩
    nativeCursorRect := none
    defaultCharacterWidth := JSNum.num (-5)
    defaultLineHeight := JSNum.num 20
    docLines := [[]] }

/-- A host with default character width 8, for the wide-glyph estimates. -/
def evWide : EditorViewM :=
  { coordsAtPos := fun _ _ => none
    nativeCursorRect := none
    defaultCharacterWidth := JSNum.num 8
    defaultLineHeight := JSNum.num 20
    docLines := [[]] }

/-- A coordinate-service state freshly attached to `evFail`. -/
def csFail : CoordServiceState :=
  { editorView := some evFail, lastSuccessfulCoords := none, coordsCache := [] }

/-- A coordinate-service state freshly attached to `evGood`. -/
def csGood : CoordServiceState :=
  { editorView := some evGood, lastSuccessfulCoords := none, coordsCache := [] }

/-- A measurement-service state freshly attached to `evGood`. -/
def msGood : MeasureState :=
  { editorView := some evGood, charWidthCache := [] }

/-- A coordinate-service state freshly attached to `evBad`. -/
def csBad : CoordServiceState :=
  { editorView := some evBad, lastSuccessfulCoords := none, coordsCache := [] }

/-- A measurement-service state freshly attached to `evBad`. -/
def msBad : MeasureState :=
  { editorView := some evBad, charWidthCache := [] }

/-- Closed form of the convergence scenario while the loop is running: after
`n` frames the horizontal gap to the target has shrunk by `(21/25)^n` (one
lerp with factor `16/100` per frame). -/
def convExpected (n : ℕ) : EngineState :=
  { currentPos := ⟨100 - 100 * (21 / 25 : ℚ) ^ n, 0, 8, 18⟩
    targetPos := convTarget
    isAnimating := true
    isStopped := false
    cachedLerpFactor := 16 / 100
    cachedAnimationDuration := 100
    cachedTypingLerpFactor := 35 / 100
    cachedTypingAnimationDuration := 50
    isCurrentlyTyping := false
    isMovementActive := true
    pendingStop := false
    lastEmitted := some ⟨100 - 100 * (21 / 25 : ℚ) ^ n, 0, 8, 18⟩ }

/-! ## Theorems -/

/-- **C2.** Coordinate resolution follows the ordered fallback chain with
first success winning: side 1, then side -1, then the native caret
rectangle (present and non-zero-sized), then the last successfully resolved
coordinates, and `null` only when all of these fail — exactly the
left-biased `orElse` chain of the four sources. -/
theorem c2_coordinate_fallback_chain (ev : EditorViewM) (pos : ℕ)
    (last : Option Coords) :
    getCursorCoords ev pos last =
      (ev.coordsAtPos pos 1).orElse (fun _ =>
        (ev.coordsAtPos pos (-1)).orElse (fun _ =>
          (getNativeCursorPosition ev.nativeCursorRect).orElse (fun _ => last))) := by
  unfold getCursorCoords
  cases ev.coordsAtPos pos 1 <;>
    cases ev.coordsAtPos pos (-1) <;>
      cases getNativeCursorPosition ev.nativeCursorRect <;>
        simp [Option.orElse]

/-- **C3.** Shape dimension mapping on the base rectangle
`{x:10, y:20, width:8, height:18}`: the bar shape (`"line"`) yields width 2,
height 18, yOffset 0; `"underline"` yields width 8, height 2, yOffset 16;
`"block"` leaves the base unchanged with yOffset 0, and so does every
unrecognized shape value. -/
theorem c3_shape_dimension_mapping :
    calculateCursorDimensions
        ⟨JSNum.num 10, JSNum.num 20, JSNum.num 8, JSNum.num 18⟩ "line" =
      ⟨JSNum.num 2, JSNum.num 18, JSNum.num 0⟩ ∧
    calculateCursorDimensions
        ⟨JSNum.num 10, JSNum.num 20, JSNum.num 8, JSNum.num 18⟩ "underline" =
      ⟨JSNum.num 8, JSNum.num 2, JSNum.num 16⟩ ∧
    calculateCursorDimensions
        ⟨JSNum.num 10, JSNum.num 20, JSNum.num 8, JSNum.num 18⟩ "block" =
      ⟨JSNum.num 8, JSNum.num 18, JSNum.num 0⟩ ∧
    (∀ shape : String, shape ≠ "line" → shape ≠ "underline" →
      calculateCursorDimensions
          ⟨JSNum.num 10, JSNum.num 20, JSNum.num 8, JSNum.num 18⟩ shape =
        ⟨JSNum.num 8, JSNum.num 18, JSNum.num 0⟩) := by
  refine ⟨?_, ?_, ?_, ?_⟩
  · simp [calculateCursorDimensions]
  · simp [calculateCursorDimensions, JSNum.sub]
    norm_num
  · simp [calculateCursorDimensions]
  · intro shape h1 h2
    simp [calculateCursorDimensions, h1, h2]

/-- Witness for C3: an unrecognized shape string falls back to the block
behaviour. -/
theorem c3_shape_dimension_mapping_witness :
    calculateCursorDimensions
        ⟨JSNum.num 10, JSNum.num 20, JSNum.num 8, JSNum.num 18⟩ "wavy" =
      ⟨JSNum.num 8, JSNum.num 18, JSNum.num 0⟩ :=
  c3_shape_dimension_mapping.2.2.2 "wavy" (by decide) (by decide)

/-- **C9.** Attach is idempotent: a second `attach` with the same surface
while attached with a healthy, DOM-connected overlay element leaves the
renderer state exactly as it was. -/
theorem c9_attach_idempotent (s : RendererState) (v : ℕ)
    (hview : s.editorView = some v) (hatt : s.isAttached = true)
    (hel : s.cursorEl = some true) :
    rendererAttach s v = s := by
  simp [rendererAttach, hview, hatt, hel]

/-- Witness for C9 at a concrete attached, healthy state. -/
theorem c9_attach_idempotent_witness :
    rendererAttach
        { editorView := some 1, isAttached := true,
          cursorEl := some true, orphanCount := 0 } 1 =
      { editorView := some 1, isAttached := true,
        cursorEl := some true, orphanCount := 0 } :=
  c9_attach_idempotent _ 1 rfl rfl rfl

/-- **C10.** Coordinate-resolution failure is atomic with respect to cache
state: when the cached resolution call returns `null`, the per-offset
coordinate cache and the stored last-successful coordinates are exactly what
they were before the call. -/
theorem c10_failed_resolution_preserves_cache (s : CoordServiceState)
    (pos : ℕ) (now : ℚ)
    (h : (getCursorCoordsCached s pos now).1 = none) :
    (getCursorCoordsCached s pos now).2.coordsCache = s.coordsCache ∧
    (getCursorCoordsCached s pos now).2.lastSuccessfulCoords =
      s.lastSuccessfulCoords := by
  unfold getCursorCoordsCached at h ⊢
  cases hev : s.editorView with
  | none => simp [hev]
  | some ev =>
    simp only [hev] at h ⊢
    cases hc : coordsCacheGet s.coordsCache pos with
    | some entry =>
      simp only [hc] at h ⊢
      by_cases hfresh : now - entry.timestamp < coordsCacheMaxAge
      · simp [hfresh] at h
      · simp only [if_neg hfresh] at h ⊢
        unfold coordLookupFresh at h ⊢
        cases hg : getCursorCoords ev pos s.lastSuccessfulCoords with
        | some c => simp [hg] at h
        | none => simp [hg]
    | none =>
      simp only [hc] at h ⊢
      unfold coordLookupFresh at h ⊢
      cases hg : getCursorCoords ev pos s.lastSuccessfulCoords with
      | some c => simp [hg] at h
      | none => simp [hg]

/-- Witness for C10: on a host where every strategy fails, the lookup
returns `null` and the service state is untouched. -/
theorem c10_failed_resolution_preserves_cache_witness :
    (getCursorCoordsCached csFail 0 0).2.coordsCache = csFail.coordsCache ∧
    (getCursorCoordsCached csFail 0 0).2.lastSuccessfulCoords =
      csFail.lastSuccessfulCoords :=
  c10_failed_resolution_preserves_cache csFail 0 0 rfl

/-- Invariant maintained by every attach/detach sequence: the document
holds no orphaned overlay nodes, and an attached session owns a connected
overlay element. -/
def RendererInv (s : RendererState) : Prop :=
  s.orphanCount = 0 ∧ (s.isAttached = true → s.cursorEl = some true)

/-- Each lifecycle call preserves the overlay invariant. -/
theorem applyRendererOp_inv (s : RendererState) (op : RendererOp)
    (h : RendererInv s) : RendererInv (applyRendererOp s op) := by
  obtain ⟨h1, h2⟩ := h
  cases op with
  | attach v =>
    simp only [applyRendererOp, rendererAttach]
    by_cases hguard : s.editorView = some v ∧ s.isAttached = true ∧ s.cursorEl = some true
    · simpa [hguard] using ⟨h1, h2⟩
    · simp [hguard, elementCreate, rendererDetach, RendererInv]
  | detach =>
    simp [applyRendererOp, rendererDetach, RendererInv, h1]

/-- Sequences of lifecycle calls preserve the overlay invariant. -/
theorem runRendererOps_inv (ops : List RendererOp) (s : RendererState)
    (h : RendererInv s) : RendererInv (runRendererOps s ops) := by
  induction ops generalizing s with
  | nil => simpa [runRendererOps] using h
  | cons op rest ih =>
    have hstep := applyRendererOp_inv s op h
    simpa [runRendererOps, List.foldl] using ih (applyRendererOp s op) hstep

/-- **C6 (counterexample).** The claim "zero overlay elements exist while
detached" fails: after `attach` then `detach` from the initial state, the
renderer is detached yet one overlay-class element is still in the document
(detach only hides the element; it is removed on destroy). -/
theorem c6_overlay_exclusivity_counterexample :
    (runRendererOps initialRendererState
        [RendererOp.attach 0, RendererOp.detach]).isAttached = false ∧
    overlayCount (runRendererOps initialRendererState
        [RendererOp.attach 0, RendererOp.detach]) = 1 := by
  decide

/-- **C6 (amended).** After any sequence of attach/detach calls from the
initial state: at most one overlay-class element exists in the document;
exactly one exists while a session is attached; and destroying the renderer
removes the overlay, leaving zero.  (After a mere detach the single element
remains, hidden, contrary to the original claim.) -/
theorem c6_overlay_exclusivity (ops : List RendererOp) :
    overlayCount (runRendererOps initialRendererState ops) ≤ 1 ∧
    ((runRendererOps initialRendererState ops).isAttached = true →
      overlayCount (runRendererOps initialRendererState ops) = 1) ∧
    overlayCount (rendererDestroy (runRendererOps initialRendererState ops)) = 0 := by
  have hinv : RendererInv (runRendererOps initialRendererState ops) :=
    runRendererOps_inv ops initialRendererState (by simp [RendererInv, initialRendererState])
  obtain ⟨h1, h2⟩ := hinv
  refine ⟨?_, ?_, ?_⟩
  · by_cases hel : (runRendererOps initialRendererState ops).cursorEl = some true <;>
      simp [overlayCount, h1, hel]
  · intro hatt
    simp [overlayCount, h1, h2 hatt]
  · simp [overlayCount, rendererDestroy, rendererDetach, h1]

/-- Witness for C6 (amended): a single attach leaves exactly one overlay
element in the document. -/
theorem c6_overlay_exclusivity_witness :
    overlayCount (runRendererOps initialRendererState [RendererOp.attach 5]) = 1 :=
  (c6_overlay_exclusivity [RendererOp.attach 5]).2.1 (by decide)

/-- **C8.** For every offset at or past the end of the document, and for
every offset with no character at it (empty lines, line ends), glyph
measurement returns the host's default character width — both the cached
entry point and the underlying measurement, with no error path. -/
theorem c8_measurement_default_fallback (ms : MeasureState) (ev : EditorViewM)
    (pos : ℕ) (hev : ms.editorView = some ev)
    (h : pos ≥ docLength ev.docLines ∨
      (lineAt ev.docLines pos).2.get? (pos - (lineAt ev.docLines pos).1) = none) :
    (measureCharacterWidthCached ms pos).1 = getDefaultCharWidth (some ev) ∧
    measureCharacterWidth ms pos = getDefaultCharWidth (some ev) := by
  unfold measureCharacterWidthCached measureCharacterWidth
  rw [hev]
  rcases h with hend | hchar
  · simp [hend]
  · rw [List.get?_eq_getElem?] at hchar
    by_cases hend : pos ≥ docLength ev.docLines
    · simp [hend]
    · simp [hend, hchar]

/-- Witness for C8: on a one-empty-line document, offset 0 (the empty line)
and the end of the document measure to the host default width 7. -/
theorem c8_measurement_default_fallback_witness :
    (measureCharacterWidthCached msGood 0).1 = getDefaultCharWidth (some evGood) ∧
    measureCharacterWidth msGood 0 = getDefaultCharWidth (some evGood) :=
  c8_measurement_default_fallback msGood evGood 0 rfl (Or.inl (by decide))

/-- **C7 (counterexample).** The claim says a character with code point
above the high threshold `0x1F000` estimates to twice the default width,
but the range test runs on `charCodeAt(0)` — the first UTF-16 code unit,
which for the supplementary-plane character U+20000 (a CJK Extension B
ideograph) is the surrogate `0xD840`, matching no range: the estimate is
the default width 8, not 16. -/
theorem c7_wide_glyph_counterexample :
    0x1F000 < 0x20000 ∧
    estimateCharWidthAtCodePoint (some evWide) 0x20000 = JSNum.num 8 ∧
    JSNum.double (getDefaultCharWidth (some evWide)) = JSNum.num 16 ∧
    estimateCharWidthAtCodePoint (some evWide) 0x20000 ≠
      JSNum.double (getDefaultCharWidth (some evWide)) := by
  refine ⟨by norm_num, ?_, ?_, ?_⟩
  · simp [estimateCharWidthAtCodePoint, estimateCharWidth, utf16First, isWideCode,
      getDefaultCharWidth, evWide, JSNum.orDefault, JSNum.truthy]
  · simp [getDefaultCharWidth, evWide, JSNum.orDefault, JSNum.truthy, JSNum.double]
    norm_num
  · simp [estimateCharWidthAtCodePoint, estimateCharWidth, utf16First, isWideCode,
      getDefaultCharWidth, evWide, JSNum.orDefault, JSNum.truthy, JSNum.double]

/-- **C7 (amended).** With measurement unavailable, a character estimates
via its first UTF-16 code unit: BMP characters in the listed wide ranges
measure exactly twice the retrieved default width and every other character
exactly the default — in particular every supplementary-plane character
(first unit a surrogate, never above `0x1F000`) measures the default. -/
theorem c7_wide_glyph_estimate (ev : Option EditorViewM) (cp : ℕ)
    (hcp : cp ≤ 0x10FFFF) :
    estimateCharWidthAtCodePoint ev cp =
      if cp < 0x10000 ∧ isWideCode cp = true then
        JSNum.double (getDefaultCharWidth ev)
      else getDefaultCharWidth ev := by
  by_cases h : cp < 0x10000
  · rw [estimateCharWidthAtCodePoint, utf16First, if_pos h, estimateCharWidth]
    by_cases hw : isWideCode cp
    · simp [hw, h]
    · simp [hw, h]
  · have hwide : isWideCode (0xD800 + (cp - 0x10000) / 0x400) = false := by
      have hdiv : (cp - 0x10000) / 0x400 ≤ 0x3FF := by omega
      simp only [isWideCode, Bool.or_eq_false_iff, Bool.and_eq_false_iff,
        decide_eq_false_iff_not, not_le, not_lt]
      omega
    rw [estimateCharWidthAtCodePoint, utf16First, if_neg h, estimateCharWidth, hwide]
    simp [h]

/-- Witness for C7 (amended): the BMP ideograph U+4E2D estimates to twice
the default width. -/
theorem c7_wide_glyph_estimate_witness :
    estimateCharWidthAtCodePoint (some evWide) 0x4E2D =
      if 0x4E2D < 0x10000 ∧ isWideCode 0x4E2D = true then
        JSNum.double (getDefaultCharWidth (some evWide))
      else getDefaultCharWidth (some evWide) :=
  c7_wide_glyph_estimate (some evWide) 0x4E2D (by norm_num)

/-- **C5 (counterexample).** The claim that every position handed to the
Animation Engine has `width ≥ 0` fails: width is the host-reported
character width, which is not validated.  On a host whose
`defaultCharacterWidth` is `-5`, coordinates resolve fine and
`updateCursorPositionWithContext` hands `animateTo` a rectangle of width
`-5 < 0`. -/
theorem c5_validated_position_counterexample :
    (updateCursorPositionWithContext (some true) true false false "block" false
        evBad 0 csBad msBad 0).1 =
      [RenderEffect.show,
        RenderEffect.engineAnimateTo
          ⟨JSNum.num 5, JSNum.num 6, JSNum.num (-5), JSNum.num 20⟩ false] ∧
    JSNum.le (JSNum.num 0) (JSNum.num (-5)) = false := by
  constructor
  · simp [updateCursorPositionWithContext, calculateCursorPosition,
      getCursorCoordsCached, coordLookupFresh, getCursorCoords, coordsCacheGet,
      coordsCacheSet, coordsCacheMaxSize, csBad, msBad, evBad,
      measureCharacterWidthCached, docLength, getDefaultCharWidth,
      getDefaultLineHeight, JSNum.orDefault, JSNum.truthy, JSNum.isNaN,
      JSNum.isFinite, calculateTargetPosition, calculateCursorDimensions]
  · simp [JSNum.le]

/-- **C5 (amended).** The renderer validates resolved coordinates before
use: whenever `calculateCursorPosition` produces a position, its `x` and `y`
are finite, non-NaN numbers, while its width and height are exactly the
unvalidated host-reported character width and default line height; and
whenever resolution fails (nothing resolved, or a NaN / non-finite left or
top), the computed position is `null` and the update path hides the overlay
and performs no animation or DOM write. -/
theorem c5_validated_position (ev : EditorViewM) (selHead : ℕ)
    (cs : CoordServiceState) (ms : MeasureState) (now : ℚ) :
    (∀ p cs1 ms1,
      calculateCursorPosition ev selHead cs ms now = (some p, cs1, ms1) →
      p.x.isFinite = true ∧ p.y.isFinite = true ∧
      p.x.isNaN = false ∧ p.y.isNaN = false ∧
      p.width = (measureCharacterWidthCached ms selHead).1 ∧
      p.height = getDefaultLineHeight (some ev)) ∧
    (∀ cs1 ms1 isScrolling wasHidden shape isTyping,
      calculateCursorPosition ev selHead cs ms now = (none, cs1, ms1) →
      updateCursorPositionWithContext (some true) true isScrolling wasHidden
          shape isTyping ev selHead cs ms now =
        ([RenderEffect.hide], cs1, ms1)) := by
  constructor
  · intro p cs1 ms1 h
    unfold calculateCursorPosition at h
    split at h
    · simp at h
    · rename_i c cs2 heq
      split at h
      · simp at h
      · rename_i hguard
        rw [Bool.not_eq_true] at hguard
        simp only [Prod.mk.injEq, Option.some.injEq] at h
        obtain ⟨hp, hcs, hms⟩ := h
        subst hp
        cases hl : c.left <;> cases ht : c.top <;>
          simp_all [JSNum.isNaN, JSNum.isFinite]
  · intro cs1 ms1 isScrolling wasHidden shape isTyping h
    simp [updateCursorPositionWithContext, h]

/-- Witness for C5 (amended): on a healthy host the computed position has a
finite, non-NaN `x`. -/
theorem c5_validated_position_witness :
    ((⟨JSNum.num 3, JSNum.num 4, JSNum.num 7, JSNum.num 20⟩ :
      CursorPositionJ).x).isFinite = true :=
  ((c5_validated_position evGood 0 csGood msGood 0).1
    ⟨JSNum.num 3, JSNum.num 4, JSNum.num 7, JSNum.num 20⟩
    { csGood with
        lastSuccessfulCoords := some ⟨JSNum.num 3, JSNum.num 4⟩
        coordsCache := [(0, ⟨⟨JSNum.num 3, JSNum.num 4⟩, 0⟩)] }
    msGood (by rfl)).1

/-- **C4 (counterexample).** The claim that the per-frame factor is always
`min(1, 16/max(duration, 16))` fails at the shipped typing duration of
50 ms: the typing cache is seeded with 0.35 for duration 50 and
`updateLerpFactor` only recomputes when the duration changes, so a typing
animation uses 0.35 where the formula demands 0.32 — the first frame from
`{0,0,8,18}` toward `{100,0,8,18}` moves `x` to 35, not 32. -/
theorem c4_lerp_factor_counterexample :
    usedLerpFactor
        (animateTo convSettings ⟨100, 0, 8, 18⟩ true (initEngine convSettings)) =
      35 / 100 ∧
    min (1 : ℚ)
        (16 / max (convSettings.insertModeAnimationDuration.getD 50) 16) =
      32 / 100 ∧
    (animateFrame
        (animateTo convSettings ⟨100, 0, 8, 18⟩ true
          (initEngine convSettings))).currentPos.x = 35 ∧
    (35 : ℚ) ≠
      0 + (100 - 0) *
        min (1 : ℚ)
          (16 / max (convSettings.insertModeAnimationDuration.getD 50) 16) := by
  refine ⟨?_, ?_, ?_, ?_⟩
  · norm_num [animateTo, initEngine, updateLerpFactor, usedLerpFactor,
      notifyMovementStarted, convSettings]
  · norm_num [convSettings]
  · norm_num [animateTo, initEngine, updateLerpFactor, usedLerpFactor,
      notifyMovementStarted, animateFrame, lerpStepQ, distSq, dimSq,
      convSettings, scheduleMovementStopped]
  · norm_num [convSettings]

/-- **C4 (amended).** Each animation frame updates every field as
`current += (target - current) * lerpFactor`, with the factor selected by
the typing flag captured at animation start.  For an animation started from
a freshly constructed engine, the general-movement factor always equals
`min(1, 16/max(duration, 16))`; the typing factor equals
`min(1, 16/max(typingDuration, 16))` whenever the configured typing
duration differs from 50 ms, but stays at the seeded 0.35 when it is
exactly 50 ms (the constructor's cache is never recomputed for that
value). -/
theorem c4_frame_interpolation (settings : SettingsM) (c0 target : QPos)
    (isTyping : Bool) (hanim : settings.enableAnimation = true)
    (htyp : ¬(isTyping = true ∧ settings.enableInsertModeAnimation = false)) :
    usedLerpFactor
        (animateTo settings target isTyping (setImmediate c0 (initEngine settings))) =
      (if isTyping = true then
        (if settings.insertModeAnimationDuration.getD 50 = 50 then 35 / 100
         else min 1 (16 / max (settings.insertModeAnimationDuration.getD 50) 16))
       else min 1 (16 / max settings.animationDuration 16)) ∧
    (animateFrame
        (animateTo settings target isTyping
          (setImmediate c0 (initEngine settings)))).currentPos =
      (let f := usedLerpFactor
        (animateTo settings target isTyping (setImmediate c0 (initEngine settings)))
       let c1 := lerpStepQ f c0 target
       if distSq c1 target < 1 / 4 ∧ dimSq c1 target < 1 / 100 then target
       else c1) := by
  have hF : animateTo settings target isTyping (setImmediate c0 (initEngine settings)) =
      { currentPos := c0
        targetPos := target
        isAnimating := true
        isStopped := false
        cachedLerpFactor := min 1 (16 / max settings.animationDuration 16)
        cachedAnimationDuration := settings.animationDuration
        cachedTypingLerpFactor :=
          if settings.insertModeAnimationDuration.getD 50 = 50 then 35 / 100
          else min 1 (16 / max (settings.insertModeAnimationDuration.getD 50) 16)
        cachedTypingAnimationDuration := settings.insertModeAnimationDuration.getD 50
        isCurrentlyTyping := isTyping
        isMovementActive := true
        pendingStop := false
        lastEmitted := some c0 } := by
    by_cases hd : settings.animationDuration = 100 <;>
      by_cases hdt : settings.insertModeAnimationDuration.getD 50 = 50 <;>
        simp [animateTo, initEngine, updateLerpFactor, setImmediate,
          setPositionDirect, notifyMovementStarted, hanim, htyp, hd, hdt] <;>
          norm_num [hd, hdt]
  constructor
  · rw [hF]
    cases isTyping <;> simp [usedLerpFactor]
  · rw [hF]
    unfold animateFrame
    rw [if_neg (by simp)]
    dsimp only [usedLerpFactor]
    rw [apply_ite EngineState.currentPos]

/-- Witness for C4 (amended): a typing animation configured with an 80 ms
typing duration uses the formula factor `16/80`. -/
theorem c4_frame_interpolation_witness :
    usedLerpFactor
        (animateTo ⟨true, 200, true, some 80⟩ ⟨10, 0, 2, 18⟩ true
          (setImmediate ⟨0, 0, 0, 0⟩ (initEngine ⟨true, 200, true, some 80⟩))) =
      (if true = true then
        (if (Option.getD (some (80 : ℚ)) 50) = 50 then 35 / 100
         else min 1 (16 / max (Option.getD (some (80 : ℚ)) 50) 16))
       else min 1 (16 / max (200 : ℚ) 16)) :=
  (c4_frame_interpolation ⟨true, 200, true, some 80⟩ ⟨0, 0, 0, 0⟩ ⟨10, 0, 2, 18⟩
    true rfl (by simp)).1

/-- While at most 30 frames have run, the gap to the target is at least
half a pixel (so the snap threshold is not yet reached). -/
theorem conv_gap_ge (m : ℕ) (hm : m ≤ 30) :
    (1 : ℚ) / 2 ≤ 100 * (21 / 25) ^ m := by
  have h30 : (1 : ℚ) / 2 ≤ 100 * (21 / 25) ^ 30 := by norm_num
  have hmono : ((21 : ℚ) / 25) ^ 30 ≤ (21 / 25) ^ m :=
    pow_le_pow_of_le_one (by norm_num) (by norm_num) hm
  nlinarith

/-- After the 31st lerp the gap is below half a pixel. -/
theorem conv_gap_lt : 100 * ((21 : ℚ) / 25) ^ 31 < 1 / 2 := by norm_num

/-- One lerp of the scenario shrinks the gap by the factor `21/25`. -/
theorem conv_lerp_step (n : ℕ) :
    lerpStepQ (16 / 100) ⟨100 - 100 * (21 / 25 : ℚ) ^ n, 0, 8, 18⟩ convTarget =
      ⟨100 - 100 * (21 / 25 : ℚ) ^ (n + 1), 0, 8, 18⟩ := by
  simp only [lerpStepQ, convTarget, QPos.mk.injEq]
  refine ⟨by ring, by ring, by ring, by ring⟩

/-- Squared distance to the target at the scenario states. -/
theorem conv_distSq (n : ℕ) :
    distSq (⟨100 - 100 * (21 / 25 : ℚ) ^ n, 0, 8, 18⟩ : QPos) convTarget =
      (100 * (21 / 25 : ℚ) ^ n) * (100 * (21 / 25 : ℚ) ^ n) := by
  simp only [distSq, convTarget]
  ring

/-- The state right after `animateTo` matches the closed form at frame 0. -/
theorem conv_state0_eq : convState0 = convExpected 0 := by
  simp [convState0, animateTo, setImmediate, setPositionDirect, initEngine,
    updateLerpFactor, notifyMovementStarted, convSettings, convExpected,
    convStart, convTarget]

/-- A frame inside the running regime advances the closed form by one. -/
theorem conv_frame (m : ℕ) (hm : m + 1 ≤ 30) :
    animateFrame (convExpected m) = convExpected (m + 1) := by
  have hf : usedLerpFactor (convExpected m) = 16 / 100 := by
    simp [usedLerpFactor, convExpected]
  have hlerp : lerpStepQ (usedLerpFactor (convExpected m))
      (convExpected m).currentPos (convExpected m).targetPos =
        ⟨100 - 100 * (21 / 25 : ℚ) ^ (m + 1), 0, 8, 18⟩ := by
    rw [hf]
    exact conv_lerp_step m
  have hge : (1 : ℚ) / 2 ≤ 100 * (21 / 25) ^ (m + 1) := conv_gap_ge (m + 1) hm
  have hsq : ¬(distSq (⟨100 - 100 * (21 / 25 : ℚ) ^ (m + 1), 0, 8, 18⟩ : QPos)
      convTarget < 1 / 4) := by
    rw [conv_distSq (m + 1)]
    push_neg
    nlinarith
  unfold animateFrame
  rw [if_neg (by simp [convExpected])]
  dsimp only
  rw [hlerp]
  rw [if_neg (fun hcontra => hsq hcontra.1)]
  simp [convExpected]

/-- The scenario follows the closed form for its first 30 frames. -/
theorem conv_regime (n : ℕ) (hn : n ≤ 30) : convRun n = convExpected n := by
  induction n with
  | zero => exact conv_state0_eq
  | succ m ih =>
    have hm : m ≤ 30 := by omega
    have step : convRun (m + 1) = animateFrame (convRun m) := rfl
    rw [step, ih hm, conv_frame m hn]

/-- Frame 31 crosses both thresholds and snaps exactly to the target. -/
theorem conv_snap :
    convRun 31 = { convExpected 30 with
      currentPos := convTarget
      lastEmitted := some convTarget
      isAnimating := false
      isCurrentlyTyping := false
      pendingStop := true } := by
  have h30 : convRun 30 = convExpected 30 := conv_regime 30 (by norm_num)
  have hf : usedLerpFactor (convExpected 30) = 16 / 100 := by
    simp [usedLerpFactor, convExpected]
  have hlerp : lerpStepQ (usedLerpFactor (convExpected 30))
      (convExpected 30).currentPos (convExpected 30).targetPos =
        ⟨100 - 100 * (21 / 25 : ℚ) ^ 31, 0, 8, 18⟩ := by
    rw [hf]
    exact conv_lerp_step 30
  have hpos : (0 : ℚ) < 100 * (21 / 25) ^ 31 := by positivity
  have hlt : distSq (⟨100 - 100 * (21 / 25 : ℚ) ^ 31, 0, 8, 18⟩ : QPos)
      convTarget < 1 / 4 := by
    rw [conv_distSq 31]
    nlinarith [conv_gap_lt]
  have hdim : dimSq (⟨100 - 100 * (21 / 25 : ℚ) ^ 31, 0, 8, 18⟩ : QPos)
      convTarget < 1 / 100 := by
    norm_num [dimSq, convTarget]
  have step : convRun 31 = animateFrame (convRun 30) := rfl
  rw [step, h30]
  unfold animateFrame
  rw [if_neg (by simp [convExpected])]
  dsimp only
  rw [hlerp]
  rw [if_pos ⟨hlt, hdim⟩]
  rfl

/-- **C1.** Animation convergence: from current `{0,0,8,18}` toward target
`{100,0,8,18}` with a 100 ms duration, every running frame strictly
decreases the squared distance to the target; the loop runs for exactly 31
frames, snapping once the squared positional delta drops below 0.25 (the
dimensional delta stays below 0.01 throughout), and the final position
emitted through the frame callback is exactly the target. -/
theorem c1_animation_convergence :
    (∀ n, n < 31 →
      distSq (convRun (n + 1)).currentPos (convRun (n + 1)).targetPos <
        distSq (convRun n).currentPos (convRun n).targetPos) ∧
    (∀ n, n < 31 → (convRun n).isAnimating = true) ∧
    (convRun 31).isAnimating = false ∧
    (convRun 31).currentPos = convTarget ∧
    (convRun 31).targetPos = convTarget ∧
    (convRun 31).lastEmitted = some convTarget := by
  have hq0 : (0 : ℚ) < 21 / 25 := by norm_num
  have hq1 : (21 : ℚ) / 25 < 1 := by norm_num
  refine ⟨?_, ?_, ?_, ?_, ?_, ?_⟩
  · intro n hn
    by_cases hcase : n ≤ 29
    · rw [conv_regime n (by omega), conv_regime (n + 1) (by omega)]
      have hproj : ∀ m : ℕ, distSq (convExpected m).currentPos
          (convExpected m).targetPos =
            (100 * (21 / 25 : ℚ) ^ m) * (100 * (21 / 25 : ℚ) ^ m) := by
        intro m
        exact conv_distSq m
      rw [hproj n, hproj (n + 1)]
      have hlt : ((21 : ℚ) / 25) ^ (n + 1) < (21 / 25) ^ n :=
        pow_lt_pow_right_of_lt_one₀ hq0 hq1 (Nat.lt_succ_self n)
      have hp1 : (0 : ℚ) < (21 / 25 : ℚ) ^ (n + 1) := by positivity
      nlinarith
    · have hn30 : n = 30 := by omega
      subst hn30
      rw [conv_snap, conv_regime 30 (by norm_num)]
      have hz : distSq convTarget convTarget = 0 := by
        simp [distSq]
      have hp : (0 : ℚ) < (100 * (21 / 25 : ℚ) ^ 30) * (100 * (21 / 25 : ℚ) ^ 30) := by
        positivity
      calc distSq ({ convExpected 30 with
              currentPos := convTarget
              lastEmitted := some convTarget
              isAnimating := false
              isCurrentlyTyping := false
              pendingStop := true } : EngineState).currentPos
            ({ convExpected 30 with
              currentPos := convTarget
              lastEmitted := some convTarget
              isAnimating := false
              isCurrentlyTyping := false
              pendingStop := true } : EngineState).targetPos
          = distSq convTarget convTarget := rfl
        _ = 0 := hz
        _ < (100 * (21 / 25 : ℚ) ^ 30) * (100 * (21 / 25 : ℚ) ^ 30) := hp
        _ = distSq (convExpected 30).currentPos (convExpected 30).targetPos :=
            (conv_distSq 30).symm
  · intro n hn
    rw [conv_regime n (by omega)]
    rfl
  · rw [conv_snap]
  · rw [conv_snap]
  · rw [conv_snap]
    rfl
  · rw [conv_snap]

/-- Witness for C1: the very first frame strictly decreases the squared
distance, and frame 0 is running. -/
theorem c1_animation_convergence_witness :
    distSq (convRun 1).currentPos (convRun 1).targetPos <
      distSq (convRun 0).currentPos (convRun 0).targetPos :=
  c1_animation_convergence.1 0 (by norm_num)

end SmoothCursor
